import Mathlib

/-!
Verification development for the fee-calculator application (`app.py`).

Monetary quantities are embedded as rationals (`ℚ`); Python decimal
literals such as `0.20` denote the corresponding exact rationals.
Python string primitives (`strip`, `split`, `replace` with empty
replacement, `float`) are modelled as structural functions on `List Char`
so that closed instances evaluate by kernel reduction.
-/

set_option maxRecDepth 4000

unseal Rat.mul Rat.add Rat.sub Rat.ofScientific Rat.inv

deriving instance DecidableEq for Except

/-- Whitespace characters recognised by Python `str.strip()`. -/
def isEspaco (c : Char) : Bool :=
  c = ' ' || c = '\t' || c = '\n' || c = '\r' || c = '\x0b' || c = '\x0c'

/-- Models Python `str.strip()` on the underlying character list. -/
def trimList (l : List Char) : List Char :=
  ((l.dropWhile isEspaco).reverse.dropWhile isEspaco).reverse

/-- Models Python `str.strip()`. -/
def pyStrip (s : String) : String :=
  String.mk (trimList s.data)

/-- Models Python `str.split(sep)` for a one-character separator. -/
def splitOnChar (sep : Char) : List Char → List (List Char)
  | [] => [[]]
  | c :: resto =>
    if c = sep then [] :: splitOnChar sep resto
    else
      match splitOnChar sep resto with
      | [] => [[c]]
      | grupo :: grupos => (c :: grupo) :: grupos

/-- Models Python `str.split("---")`: non-overlapping left-to-right split on
the three-dash delimiter used by `calcular_honorarios_com_gemini`. -/
def splitTresTracos : List Char → List (List Char)
  | '-' :: '-' :: '-' :: resto => [] :: splitTresTracos resto
  | c :: resto =>
    match splitTresTracos resto with
    | [] => [[c]]
    | grupo :: grupos => (c :: grupo) :: grupos
  | [] => [[]]

/-- Models Python `str.replace("R$", "")`: deletes every non-overlapping
occurrence of the two-character currency marker, scanning left to right. -/
def removeRS : List Char → List Char
  | [] => []
  | [c] => [c]
  | c :: d :: resto =>
    if c = 'R' ∧ d = '$' then removeRS resto
    else c :: removeRS (d :: resto)

/-- Models Python `str.replace("JUSTIFICATIVA:", "")`: deletes every
occurrence of the justification label. -/
def removeJustificativaLabel : List Char → List Char
  | 'J' :: 'U' :: 'S' :: 'T' :: 'I' :: 'F' :: 'I' :: 'C' :: 'A' :: 'T' :: 'I' :: 'V' :: 'A' :: ':' :: resto =>
      removeJustificativaLabel resto
  | c :: resto => c :: removeJustificativaLabel resto
  | [] => []

/-- String-level wrapper of `splitOnChar`. -/
def pySplitChar (sep : Char) (s : String) : List String :=
  (splitOnChar sep s.data).map String.mk

/-- String-level wrapper of `splitTresTracos`. -/
def pySplitTracos (s : String) : List String :=
  (splitTresTracos s.data).map String.mk

/-- Digit-string accumulator used by the model of Python `float`. -/
def digitosNat (l : List Char) : ℕ :=
  l.foldl (fun n c => 10 * n + (c.toNat - 48)) 0

/-- Models Python `float` on an unsigned body: an integer part and an
optional fractional part around a single decimal point, at least one digit
overall.  Exponent, underscore, infinity and NaN forms — not produced by
any input considered here — are rejected. -/
def parseUnsigned (l : List Char) : Option ℚ :=
  let ip := l.takeWhile (fun c => c ≠ '.')
  match l.dropWhile (fun c => c ≠ '.') with
  | [] =>
    if ip ≠ [] ∧ ip.all Char.isDigit then some (digitosNat ip) else none
  | _ :: fp =>
    if fp.contains '.' then none
    else if (ip ≠ [] ∨ fp ≠ []) ∧ ip.all Char.isDigit ∧ fp.all Char.isDigit then
      some ((digitosNat ip : ℚ) + (digitosNat fp : ℚ) / 10 ^ fp.length)
    else none

/-- Models Python `float(s)` on decimal literals, with an optional sign. -/
def pyFloat (s : String) : Option ℚ :=
  match s.data with
  | [] => parseUnsigned []
  | c :: resto =>
    if c = '+' then parseUnsigned resto
    else if c = '-' then (parseUnsigned resto).map Neg.neg
    else parseUnsigned (c :: resto)

/-- Models the tuple unpacking `chave, valor_str = linha.split(":")`: raises
`ValueError` unless the split produced exactly two parts. -/
def unpack2 (l : List String) : Except String (String × String) :=
  match l with
  | [a, b] => Except.ok (a, b)
  | _ => Except.error "ValueError: unpack"

/-- Models Python `float(s)` as an exception-raising operation. -/
def pyFloatExc (s : String) : Except String ℚ :=
  match pyFloat s with
  | some v => Except.ok v
  | none => Except.error "ValueError: float"

/-- Python dict assignment `d[chave] = valor`: overwrite in place, append
when absent. -/
def dictInsert (d : List (String × ℚ)) (chave : String) (valor : ℚ) : List (String × ℚ) :=
  match d with
  | [] => [(chave, valor)]
  | (k, v) :: resto =>
    if k = chave then (chave, valor) :: resto
    else (k, v) :: dictInsert resto chave valor

/-- Python `d.get(chave)`: `none` when the key is absent. -/
def dictGet? (d : List (String × ℚ)) (chave : String) : Option ℚ :=
  (d.find? (fun par => par.1 == chave)).map Prod.snd

/-- The static OAB/RJ floor table of `obter_valor_minimo_oabrj`. -/
def Tabela_Pisos_OABRJ : List (String × ℚ) :=
  [("Cível Comum (Conhecimento)", 6500.00),
   ("Família (Divórcio Consensual)", 4000.00),
   ("Trabalhista (Reclamante)", 3000.00),
   ("Previdenciário (Administrativo)", 2500.00),
   ("Imobiliário (Ações Possessórias/Reais)", 7000.00),
   ("Criminal (Defesa em Rito Sumário)", 5000.00),
   ("Tributário (Judicial/Execução Fiscal)", 8000.00),
   ("Empresarial (Elaboração de Contrato Social)", 4500.00),
   ("Outro", 3000.00)]

/-- The floor function `obter_valor_minimo_oabrj`: table lookup with
default `3000.00`, combined with half of 20% of the case value. -/
def obter_valor_minimo_oabrj (tipo_acao : String) (valor_causa : ℚ) : ℚ :=
  let piso_fixo := (dictGet? Tabela_Pisos_OABRJ tipo_acao).getD (3000.00 : ℚ)
  let percentual_oab := (0.20 : ℚ) * valor_causa
  max piso_fixo (percentual_oab * (0.5 : ℚ))

/-- The adjusted base fee of `calcular_honorarios_com_gemini` (lines 65-69):
`max(valor_causa * 0.20, obter_valor_minimo_oabrj(...))`. -/
def calculoBaseAjustado (valor_causa : ℚ) (tipo_acao : String) : ℚ :=
  max (valor_causa * (0.20 : ℚ)) (obter_valor_minimo_oabrj tipo_acao valor_causa)

/-- The value normalization of line 126:
`valor_str.strip().replace("R$", "").replace(" ", "")`. -/
def limparValor (s : String) : String :=
  String.mk (List.filter (fun c => c != ' ') (removeRS (trimList s.data)))

/-- The diagnostic printed when a line's value fails conversion. -/
def mensagemErroConversao (linha : String) : String :=
  "Erro de conversão de valor na linha: " ++ linha ++
    ". O valor não era um número float válido."

/-- The body of the per-line `try` block (lines 121-129): tuple-unpack the
colon split, normalize the value text, convert to float.  Either step may
raise `ValueError`, modelled as the `error` case. -/
def corpoLinha (linha : String) : Except String (String × ℚ) := do
  let par ← unpack2 (pySplitChar ':' linha)
  let valor_numerico ← pyFloatExc (limparValor par.2)
  pure (pyStrip par.1, valor_numerico)

/-- One iteration of the parsing loop (lines 118-140): lines without a colon
are skipped; a caught `ValueError` records a diagnostic and continues; a
converted value is stored only when non-negative. -/
def passoLinha (st : List (String × ℚ) × List String) (linha : String) :
    List (String × ℚ) × List String :=
  if linha.data.contains ':' then
    match corpoLinha linha with
    | Except.ok par => if 0 ≤ par.2 then (dictInsert st.1 par.1 par.2, st.2) else st
    | Except.error _ => (st.1, st.2 ++ [mensagemErroConversao linha])
  else st

/-- Fallback justification when the response has no `---` delimiter. -/
def semJustificativa : String :=
  "Não foi possível gerar a justificativa da IA."

/-- Output of the response-parsing portion: recovered key/value mapping,
printed diagnostics, and the justification text. -/
structure SaidaParse where
  valores : List (String × ℚ)
  registros : List String
  justificativa : String
deriving DecidableEq

/-- The response-parsing procedure of lines 113-142: strip the raw text,
split on `---`, fold the parsing loop over the lines of the first segment,
and extract the justification from the second segment when present. -/
def processarResposta (resposta : String) : SaidaParse :=
  let resultado_bruto := pyStrip resposta
  let partes := pySplitTracos resultado_bruto
  let valores_registros :=
    if 0 < partes.length then
      (pySplitChar '\n' (pyStrip (partes.headD ""))).foldl passoLinha ([], [])
    else ([], [])
  let justificativa :=
    match partes with
    | _ :: parte1 :: _ => pyStrip (String.mk (removeJustificativaLabel parte1.data))
    | _ => semJustificativa
  ⟨valores_registros.1, valores_registros.2, justificativa⟩

/-- The dictionary returned by `calcular_honorarios_com_gemini` on the
success path (lines 144-151). -/
structure Resultado where
  piso_oabrj : ℚ
  base : ℚ
  minimo : Option ℚ
  medio : Option ℚ
  maximo : Option ℚ
  justificativa : String
deriving DecidableEq

/-- Success path of `calcular_honorarios_com_gemini`, with the network call
replaced by its returned text: compute base and floor locally, parse the
response, and assemble the result dictionary. -/
def calcular_honorarios_com_gemini (valor_causa : ℚ) (tipo_acao : String)
    (resposta : String) : Resultado :=
  let valor_minimo_oabrj := obter_valor_minimo_oabrj tipo_acao valor_causa
  let calculo_base_ajustado := calculoBaseAjustado valor_causa tipo_acao
  let saida := processarResposta resposta
  { piso_oabrj := valor_minimo_oabrj
    base := calculo_base_ajustado
    minimo := dictGet? saida.valores "MINIMO"
    medio := dictGet? saida.valores "MEDIO"
    maximo := dictGet? saida.valores "MAXIMO"
    justificativa := saida.justificativa }

/-- Rounding to an integer with ties to even, as Python `format` rounds the
decimal value rendered by `:,.2f` (binary floating-point representation
effects are outside the scope of this model). -/
def roundHalfEven (x : ℚ) : ℤ :=
  let fl := x.num.fdiv x.den
  let fr := x - (fl : ℚ)
  if fr < 1 / 2 then fl
  else if 1 / 2 < fr then fl + 1
  else if fl % 2 = 0 then fl else fl + 1

/-- Inserts a comma after every third character of a reversed digit list:
the thousands grouping of Python `format(n, ",")`, built from the right. -/
def agrupar3Rev : List Char → List Char
  | a :: b :: c :: d :: resto => a :: b :: c :: ',' :: agrupar3Rev (d :: resto)
  | l => l

/-- Two-digit zero-padded decimal rendering of a number below 100. -/
def doisDigitos (n : ℕ) : List Char :=
  [Nat.digitChar (n / 10), Nat.digitChar (n % 10)]

/-- Models the Python format expression `f"{x:,.2f}"`: sign, integer part
grouped in threes by commas, decimal point, two fractional digits. -/
def pyCommaFormat (x : ℚ) : String :=
  let cents := roundHalfEven (x * 100)
  let sinal := if cents < 0 then ['-'] else []
  let n := cents.natAbs
  String.mk (sinal ++ (agrupar3Rev (Nat.toDigits 10 (n / 100)).reverse).reverse ++
    '.' :: doisDigitos (n % 100))

/-- Character action of the replace chain
`.replace(',', 'X').replace('.', ',').replace('X', '.')` of
`formatar_valor`: the three single-character replacements compose to this
map applied to every character. -/
def swapSep (c : Char) : Char :=
  if c = ',' then '.' else if c = '.' then ',' else if c = 'X' then '.' else c

/-- The currency formatter `formatar_valor` (line 280-282): `"N/A"` for a
missing value, otherwise `f"R$ {valor:,.2f}"` with `','`/`'.'` swapped into
Brazilian convention. -/
def formatar_valor (valor : Option ℚ) : String :=
  match valor with
  | none => "N/A"
  | some v => String.mk (("R$ ".data ++ (pyCommaFormat v).data).map swapSep)

/-! Helper lemmas about the string primitives and the parsing loop. -/

theorem mem_removeRS {c : Char} {l : List Char} (h1 : c ≠ 'R') (h2 : c ≠ '$')
    (h : c ∈ l) : c ∈ removeRS l := by
  induction l using removeRS.induct with
  | case1 => exact absurd h (List.not_mem_nil c)
  | case2 c' => simpa [removeRS] using h
  | case3 c' d resto hcond ih =>
    rw [removeRS, if_pos hcond]
    rcases h with _ | ⟨_, h⟩
    · exact absurd hcond.1 h1
    · rcases h with _ | ⟨_, h⟩
      · exact absurd hcond.2 h2
      · exact ih h
  | case4 c' d resto hcond ih =>
    rw [removeRS, if_neg hcond]
    rcases h with _ | ⟨_, h⟩
    · exact List.mem_cons_self _ _
    · exact List.mem_cons_of_mem _ (ih h)

theorem mem_dropWhile_of_neg {p : Char → Bool} {c : Char} (hc : p c = false) :
    ∀ {l : List Char}, c ∈ l → c ∈ l.dropWhile p := by
  intro l h
  induction l with
  | nil => exact absurd h (List.not_mem_nil c)
  | cons a resto ih =>
    rw [List.dropWhile_cons]
    split
    · next hpa =>
      rcases h with _ | ⟨_, h⟩
      · rw [hc] at hpa; exact absurd hpa (by simp)
      · exact ih h
    · exact h

theorem mem_trimList {c : Char} {l : List Char} (hc : isEspaco c = false) (h : c ∈ l) :
    c ∈ trimList l := by
  unfold trimList
  exact List.mem_reverse.mpr (mem_dropWhile_of_neg hc
    (List.mem_reverse.mpr (mem_dropWhile_of_neg hc h)))

theorem dropWhile_cons_head_false {p : Char → Bool} {l : List Char} {x : Char}
    {xs : List Char} (h : l.dropWhile p = x :: xs) : p x = false := by
  induction l with
  | nil => simp [List.dropWhile] at h
  | cons a resto ih =>
    rw [List.dropWhile_cons] at h
    split at h
    · exact ih h
    · next hpa =>
      cases h
      exact Bool.not_eq_true _ |>.mp hpa

theorem all_isDigit_false_of_comma {l : List Char} (h : ',' ∈ l) :
    l.all Char.isDigit = false := by
  rw [Bool.eq_false_iff]
  intro hall
  exact absurd (List.all_eq_true.mp hall ',' h) (by decide)

theorem parseUnsigned_comma {l : List Char} (h : ',' ∈ l) : parseUnsigned l = none := by
  unfold parseUnsigned
  have hsplit : ',' ∈ l.takeWhile (fun c => decide (c ≠ '.')) ∨
      ',' ∈ l.dropWhile (fun c => decide (c ≠ '.')) := by
    rw [← List.mem_append, List.takeWhile_append_dropWhile]
    exact h
  split
  · next heq =>
    rcases hsplit with hip | hdp
    · rw [if_neg]
      rintro ⟨-, hall⟩
      rw [all_isDigit_false_of_comma hip] at hall
      exact Bool.false_ne_true hall
    · rw [heq] at hdp
      exact absurd hdp (List.not_mem_nil ',')
  · next x fp heq =>
    rcases hsplit with hip | hdp
    · split
      · rfl
      · rw [if_neg]
        rintro ⟨-, hall, -⟩
        rw [all_isDigit_false_of_comma hip] at hall
        exact Bool.false_ne_true hall
    · have hx : (decide (x ≠ '.')) = false := dropWhile_cons_head_false heq
      have hx' : x = '.' := by simpa using hx
      rw [heq] at hdp
      rcases hdp with _ | ⟨_, hdp⟩
      · exact absurd hx' (by decide)
      · split
        · rfl
        · rw [if_neg]
          rintro ⟨-, -, hall⟩
          rw [all_isDigit_false_of_comma hdp] at hall
          exact Bool.false_ne_true hall

theorem pyFloat_comma {s : String} (h : ',' ∈ s.data) : pyFloat s = none := by
  unfold pyFloat
  split
  · next heq => rw [heq] at h; exact absurd h (List.not_mem_nil ',')
  · next c resto heq =>
    rw [heq] at h
    split
    · next hc =>
      rcases h with _ | ⟨_, h⟩
      · exact absurd hc (by decide)
      · exact parseUnsigned_comma h
    · split
      · next hc =>
        rcases h with _ | ⟨_, h⟩
        · exact absurd hc (by decide)
        · rw [parseUnsigned_comma h]
          rfl
      · exact parseUnsigned_comma h

theorem mem_comma_formatar (v : ℚ) : ',' ∈ (formatar_valor (some v)).data := by
  have hdot : '.' ∈ (pyCommaFormat v).data := by
    simp [pyCommaFormat]
  simp only [formatar_valor]
  exact List.mem_map.mpr ⟨'.', List.mem_append.mpr (Or.inr hdot), by decide⟩

theorem mem_comma_limpar_formatar (v : ℚ) :
    ',' ∈ (limparValor (formatar_valor (some v))).data := by
  simp only [limparValor]
  exact List.mem_filter.mpr
    ⟨mem_removeRS (by decide) (by decide) (mem_trimList (by decide) (mem_comma_formatar v)),
     by decide⟩

theorem splitOnChar_of_not_mem {sep : Char} {l : List Char} (h : sep ∉ l) :
    splitOnChar sep l = [l] := by
  induction l with
  | nil => rfl
  | cons c resto ih =>
    have hc : ¬c = sep := fun heq => h (heq ▸ List.mem_cons_self c resto)
    have hr : sep ∉ resto := fun hm => h (List.mem_cons_of_mem c hm)
    rw [splitOnChar, if_neg hc, ih hr]

theorem splitOnChar_append_of_not_mem {sep : Char} {a b : List Char} (h : sep ∉ a) :
    splitOnChar sep (a ++ sep :: b) = a :: splitOnChar sep b := by
  induction a with
  | nil => simp [splitOnChar]
  | cons c resto ih =>
    have hc : ¬c = sep := fun heq => h (heq ▸ List.mem_cons_self c resto)
    have hr : sep ∉ resto := fun hm => h (List.mem_cons_of_mem c hm)
    rw [List.cons_append, splitOnChar, if_neg hc, ih hr]

theorem passoLinha_fst (d : List (String × ℚ)) (g g' : List String) (linha : String) :
    (passoLinha (d, g) linha).1 = (passoLinha (d, g') linha).1 := by
  unfold passoLinha
  split
  · split
    · split <;> rfl
    · rfl
  · rfl

theorem foldl_passoLinha_fst (linhas : List String) (d : List (String × ℚ))
    (g g' : List String) :
    (linhas.foldl passoLinha (d, g)).1 = (linhas.foldl passoLinha (d, g')).1 := by
  induction linhas generalizing d g g' with
  | nil => rfl
  | cons linha resto ih =>
    simp only [List.foldl_cons]
    have h := passoLinha_fst d g g' linha
    rcases h1 : passoLinha (d, g) linha with ⟨d1, g1⟩
    rcases h2 : passoLinha (d, g') linha with ⟨d2, g2⟩
    rw [h1, h2] at h
    simp only at h
    subst h
    exact ih d1 g1 g2

theorem mem_dictInsert {par : String × ℚ} {d : List (String × ℚ)} {chave : String}
    {valor : ℚ} (h : par ∈ dictInsert d chave valor) :
    par = (chave, valor) ∨ par ∈ d := by
  induction d with
  | nil => simpa [dictInsert] using h
  | cons a resto ih =>
    rw [dictInsert] at h
    split at h
    · rcases h with _ | ⟨_, h⟩
      · exact Or.inl rfl
      · exact Or.inr (List.mem_cons_of_mem a h)
    · rcases h with _ | ⟨_, h⟩
      · exact Or.inr (List.mem_cons_self a resto)
      · rcases ih h with h' | h'
        · exact Or.inl h'
        · exact Or.inr (List.mem_cons_of_mem a h')

theorem passoLinha_nonneg {d : List (String × ℚ)} {g : List String} {linha : String}
    (h : ∀ par ∈ d, 0 ≤ par.2) :
    ∀ par ∈ (passoLinha (d, g) linha).1, 0 ≤ par.2 := by
  unfold passoLinha
  split
  · split
    · next par' heq =>
      split
      · next hpos =>
        intro par hmem
        rcases mem_dictInsert hmem with h' | h'
        · rw [h']
          exact hpos
        · exact h par h'
      · exact h
    · exact h
  · exact h

theorem foldl_passoLinha_nonneg (linhas : List String) (d : List (String × ℚ))
    (g : List String) (h : ∀ par ∈ d, 0 ≤ par.2) :
    ∀ par ∈ (linhas.foldl passoLinha (d, g)).1, 0 ≤ par.2 := by
  induction linhas generalizing d g with
  | nil => exact h
  | cons linha resto ih =>
    simp only [List.foldl_cons]
    have h' := @passoLinha_nonneg d g linha h
    rcases h1 : passoLinha (d, g) linha with ⟨d1, g1⟩
    rw [h1] at h'
    exact ih d1 g1 h'

theorem processar_valores_nonneg (resposta : String) :
    ∀ par ∈ (processarResposta resposta).valores, 0 ≤ par.2 := by
  unfold processarResposta
  dsimp only
  split
  · exact foldl_passoLinha_nonneg _ [] [] (by intro par hmem; cases hmem)
  · intro par hmem
    cases hmem

theorem dictGet?_nonneg {d : List (String × ℚ)} {chave : String} {v : ℚ}
    (hd : ∀ par ∈ d, 0 ≤ par.2) (h : dictGet? d chave = some v) : 0 ≤ v := by
  unfold dictGet? at h
  cases hfind : d.find? (fun par => par.1 == chave) with
  | none => rw [hfind] at h; cases h
  | some par =>
    rw [hfind] at h
    cases h
    exact hd par (List.mem_of_find?_eq_some hfind)

theorem corpoLinha_ok_contains {linha : String} {par : String × ℚ}
    (h : corpoLinha linha = Except.ok par) : linha.data.contains ':' = true := by
  by_contra hc
  have hc' : ':' ∉ linha.data := by
    intro hm
    exact hc (List.elem_eq_true_of_mem hm)
  rw [corpoLinha] at h
  rw [show pySplitChar ':' linha = [String.mk linha.data] from by
    rw [pySplitChar, splitOnChar_of_not_mem hc']
    rfl] at h
  cases h

/-! Claim theorems. -/

/-- C1: the response-parsing procedure is a total function — it terminates
normally and never raises for any input string, including the empty string,
a string with no `---` delimiter, and a string consisting only of the
delimiter; a field it cannot parse is simply absent from the output
mapping rather than causing total failure. -/
theorem claim_C1_parse_total :
    (∀ resposta : String, ∃ saida : SaidaParse, processarResposta resposta = saida)
    ∧ processarResposta "" = ⟨[], [], semJustificativa⟩
    ∧ processarResposta "MINIMO: 4000.00\nMEDIO: seis mil" =
        ⟨[("MINIMO", 4000)], [mensagemErroConversao "MEDIO: seis mil"], semJustificativa⟩
    ∧ processarResposta "---" = ⟨[], [], ""⟩ :=
  ⟨fun _ => ⟨_, rfl⟩, by decide, by decide, by decide⟩

/-- C2: for every case type and positive case value, the adjusted base fee
equals `max(valor_causa * 0.20, obter_valor_minimo_oabrj(...))`, and is
therefore at least the floor. -/
theorem claim_C2_base_fee (tipo_acao : String) (valor_causa : ℚ)
    (_h : 0 < valor_causa) :
    calculoBaseAjustado valor_causa tipo_acao =
      max (valor_causa * (0.20 : ℚ)) (obter_valor_minimo_oabrj tipo_acao valor_causa)
    ∧ obter_valor_minimo_oabrj tipo_acao valor_causa ≤
      calculoBaseAjustado valor_causa tipo_acao :=
  ⟨rfl, le_max_right _ _⟩

/-- Witness for C2 at case type "Outro" and case value 10000. -/
theorem claim_C2_witness :
    (0 : ℚ) < 10000
    ∧ (calculoBaseAjustado 10000 "Outro" =
        max ((10000 : ℚ) * (0.20 : ℚ)) (obter_valor_minimo_oabrj "Outro" 10000)
      ∧ obter_valor_minimo_oabrj "Outro" 10000 ≤ calculoBaseAjustado 10000 "Outro") :=
  ⟨by decide, claim_C2_base_fee "Outro" 10000 (by decide)⟩

/-- C3: the floor function looks the case type up in the fixed table, falls
back to the default floor 3000.00 when the type is absent, and returns the
greater of the fixed floor and the contingency fraction 0.5 of 20% of the
case value; for "Família (Divórcio Consensual)" at 10000.00 the floor is
`max(4000.00, 0.20*10000.00*0.5)` and the base fee is `max(2000.00, floor)`. -/
theorem claim_C3_floor :
    (∀ (tipo_acao : String) (valor_causa : ℚ),
        obter_valor_minimo_oabrj tipo_acao valor_causa =
          max ((dictGet? Tabela_Pisos_OABRJ tipo_acao).getD (3000.00 : ℚ))
            ((0.20 : ℚ) * valor_causa * (0.5 : ℚ)))
    ∧ (∀ (tipo_acao : String) (valor_causa : ℚ),
        dictGet? Tabela_Pisos_OABRJ tipo_acao = none →
        obter_valor_minimo_oabrj tipo_acao valor_causa =
          max (3000.00 : ℚ) ((0.20 : ℚ) * valor_causa * (0.5 : ℚ)))
    ∧ obter_valor_minimo_oabrj "Família (Divórcio Consensual)" 10000 =
        max (4000.00 : ℚ) ((0.20 : ℚ) * 10000 * (0.5 : ℚ))
    ∧ calculoBaseAjustado 10000 "Família (Divórcio Consensual)" =
        max (2000.00 : ℚ)
          (obter_valor_minimo_oabrj "Família (Divórcio Consensual)" 10000) := by
  refine ⟨fun t v => rfl, fun t v h => ?_, by decide, by decide⟩
  unfold obter_valor_minimo_oabrj
  rw [h]
  rfl

/-- Witness for C3 at an unrecognized case type. -/
theorem claim_C3_witness :
    dictGet? Tabela_Pisos_OABRJ "Ação Monitória" = none
    ∧ obter_valor_minimo_oabrj "Ação Monitória" 10000 =
        max (3000.00 : ℚ) ((0.20 : ℚ) * 10000 * (0.5 : ℚ)) :=
  ⟨by decide, claim_C3_floor.2.1 "Ação Monitória" 10000 (by decide)⟩

/-- C4 counterexample: on the scenario response the median line
`"MEDIO: 6000,50"` does not yield 6000.50 — the comma is not stripped, the
conversion fails, and MEDIO is absent from the mapping. -/
theorem claim_C4_counterexample :
    dictGet?
      (processarResposta
        "MINIMO: 4000.00\nMEDIO: 6000,50\nMAXIMO: 9000.\n---\nJUSTIFICATIVA: texto").valores
      "MEDIO" ≠ some (6000.50 : ℚ) := by
  decide

/-- C4 amended: normalization strips surrounding whitespace, the "R$"
marker and space characters only — thousands-separator commas are not
stripped; on the scenario response the parser recovers MINIMO=4000.00 and
MAXIMO=9000.0 (trailing decimal point tolerated) and the justification
"texto", while the MEDIO line fails conversion and is skipped with a
diagnostic. -/
theorem claim_C4_amended :
    processarResposta
        "MINIMO: 4000.00\nMEDIO: 6000,50\nMAXIMO: 9000.\n---\nJUSTIFICATIVA: texto" =
      ⟨[("MINIMO", 4000), ("MAXIMO", 9000)],
       [mensagemErroConversao "MEDIO: 6000,50"], "texto"⟩
    ∧ pyFloat (limparValor " 6000,50") = none
    ∧ pyFloat (limparValor " 9000.") = some 9000
    ∧ limparValor "  R$ 9000.  " = "9000." := by
  exact ⟨by decide, by decide, by decide, by decide⟩

/-- C5 counterexample: a line with two colons is not split into the text
before the first colon and the remainder — the tuple unpacking of
`linha.split(":")` fails instead. -/
theorem claim_C5_counterexample :
    unpack2 (pySplitChar ':' "MINIMO: 10:30") ≠
      Except.ok ("MINIMO", " 10:30") := by
  decide

/-- C5 amended: `linha.split(":")` splits on every colon and the result is
unpacked into exactly two parts: a line with exactly one colon yields the
text before and after it, while a line with two or more colons raises a
caught ValueError and is skipped. -/
theorem claim_C5_amended :
    (∀ (linha : String) (a b : List Char),
        linha.data = a ++ ':' :: b → ':' ∉ a → ':' ∉ b →
        unpack2 (pySplitChar ':' linha) = Except.ok (String.mk a, String.mk b))
    ∧ (∀ linha : String, 3 ≤ (pySplitChar ':' linha).length →
        ∃ e, unpack2 (pySplitChar ':' linha) = Except.error e) := by
  constructor
  · intro linha a b hdata ha hb
    rw [pySplitChar, hdata, splitOnChar_append_of_not_mem ha,
      splitOnChar_of_not_mem hb]
    rfl
  · intro linha h
    rcases hl : pySplitChar ':' linha with _ | ⟨x, _ | ⟨y, _ | ⟨z, t⟩⟩⟩ <;>
      rw [hl] at h <;> simp at h
    exact ⟨"ValueError: unpack", rfl⟩

/-- Witness for C5 (amended) on a single-colon line. -/
theorem claim_C5_witness :
    unpack2 (pySplitChar ':' "MINIMO: 4000.00") =
      Except.ok (String.mk "MINIMO".data, String.mk " 4000.00".data) :=
  claim_C5_amended.1 "MINIMO: 4000.00" "MINIMO".data " 4000.00".data
    (by decide) (by decide) (by decide)

/-- C6: a line whose value fails numeric conversion is skipped — the
key/value mapping after processing it together with the remaining lines is
exactly the mapping obtained from the remaining lines alone; on the
scenario, `"MINIMO: abc"` leaves MINIMO absent while the subsequent lines
are parsed unaffected. -/
theorem claim_C6_skip_malformed :
    (∀ (d : List (String × ℚ)) (g : List String) (linha : String)
        (resto : List String),
        (∃ e, corpoLinha linha = Except.error e) →
        ((linha :: resto).foldl passoLinha (d, g)).1 =
          (resto.foldl passoLinha (d, g)).1)
    ∧ processarResposta "MINIMO: abc\nMEDIO: 6000.00\nMAXIMO: 9000.00" =
        ⟨[("MEDIO", 6000), ("MAXIMO", 9000)],
         [mensagemErroConversao "MINIMO: abc"], semJustificativa⟩ := by
  constructor
  · rintro d g linha resto ⟨e, he⟩
    simp only [List.foldl_cons]
    by_cases hc : linha.data.contains ':'
    · rw [show passoLinha (d, g) linha = (d, g ++ [mensagemErroConversao linha]) from by
        rw [passoLinha, if_pos hc, he]]
      exact foldl_passoLinha_fst resto d _ g
    · rw [show passoLinha (d, g) linha = (d, g) from by
        rw [passoLinha, if_neg hc]]
  · decide

/-- Witness for C6 on a concrete malformed line followed by a good line. -/
theorem claim_C6_witness :
    ((["MINIMO: abc", "MAXIMO: 9000.00"].foldl passoLinha ([], [])).1 =
      (["MAXIMO: 9000.00"].foldl passoLinha ([], [])).1) :=
  claim_C6_skip_malformed.1 [] [] "MINIMO: abc" ["MAXIMO: 9000.00"]
    ⟨"ValueError: float", by decide⟩

/-- C7: whatever the response text, the calculation returns a result whose
floor and base are the locally computed figures and whose optional fields
are exactly those the parser recovered — absent fields stay `none` (never a
silent zero); a partial parse never fails the whole request, as the
concrete partially-parseable response shows. -/
theorem claim_C7_graceful :
    (∀ (valor_causa : ℚ) (tipo_acao resposta : String),
        (calcular_honorarios_com_gemini valor_causa tipo_acao resposta).piso_oabrj =
          obter_valor_minimo_oabrj tipo_acao valor_causa
        ∧ (calcular_honorarios_com_gemini valor_causa tipo_acao resposta).base =
          calculoBaseAjustado valor_causa tipo_acao
        ∧ (calcular_honorarios_com_gemini valor_causa tipo_acao resposta).minimo =
          dictGet? (processarResposta resposta).valores "MINIMO"
        ∧ (calcular_honorarios_com_gemini valor_causa tipo_acao resposta).medio =
          dictGet? (processarResposta resposta).valores "MEDIO"
        ∧ (calcular_honorarios_com_gemini valor_causa tipo_acao resposta).maximo =
          dictGet? (processarResposta resposta).valores "MAXIMO"
        ∧ (calcular_honorarios_com_gemini valor_causa tipo_acao resposta).justificativa =
          (processarResposta resposta).justificativa)
    ∧ calcular_honorarios_com_gemini 10000 "Família (Divórcio Consensual)"
        "MINIMO: 4000.00\nMEDIO: abc" =
      ⟨4000, 4000, some 4000, none, none, semJustificativa⟩ :=
  ⟨fun _ _ _ => ⟨rfl, rfl, rfl, rfl, rfl, rfl⟩, by decide⟩

/-- C8: contrary to the claim, no validation of the suggested minimum
against the floor exists — a suggested minimum of 1000.00 below the floor
of 4000.00 is returned exactly as parsed, with no flag anywhere in the
result. -/
theorem claim_C8_no_validation :
    calcular_honorarios_com_gemini 10000 "Família (Divórcio Consensual)"
        "MINIMO: 1000.00\n---\nJUSTIFICATIVA: ok" =
      ⟨4000, 4000, some 1000, none, none, "ok"⟩
    ∧ (1000 : ℚ) < 4000
    ∧ (∀ (valor_causa : ℚ) (tipo_acao resposta : String),
        (calcular_honorarios_com_gemini valor_causa tipo_acao resposta).minimo =
          dictGet? (processarResposta resposta).valores "MINIMO") :=
  ⟨by decide, by decide, fun _ _ _ => rfl⟩

/-- C9 counterexample: formatting 4000 with the currency formatter and
re-parsing via the value-normalization rule does not recover 4000 — the
conversion fails outright. -/
theorem claim_C9_counterexample :
    pyFloat (limparValor (formatar_valor (some (4000 : ℚ)))) ≠
      some (4000 : ℚ) := by
  decide

/-- C9 amended: the round-trip never succeeds for any value — the formatter
always emits a decimal comma, which the value normalization does not strip
and the float conversion rejects, so re-parsing yields no value at all. -/
theorem claim_C9_amended (v : ℚ) :
    pyFloat (limparValor (formatar_valor (some v))) = none :=
  pyFloat_comma (mem_comma_limpar_formatar v)

/-- C10: a value line that converts to a negative number is silently
discarded — the state is completely unchanged, so no diagnostic is
recorded and the key stays absent — and consequently every value present
in the returned estimate is non-negative. -/
theorem claim_C10_negative_discarded :
    (∀ (d : List (String × ℚ)) (g : List String) (linha : String)
        (par : String × ℚ),
        corpoLinha linha = Except.ok par → par.2 < 0 →
        passoLinha (d, g) linha = (d, g))
    ∧ (∀ (valor_causa : ℚ) (tipo_acao resposta : String) (v : ℚ),
        ((calcular_honorarios_com_gemini valor_causa tipo_acao resposta).minimo = some v →
          0 ≤ v)
        ∧ ((calcular_honorarios_com_gemini valor_causa tipo_acao resposta).medio = some v →
          0 ≤ v)
        ∧ ((calcular_honorarios_com_gemini valor_causa tipo_acao resposta).maximo = some v →
          0 ≤ v)) := by
  constructor
  · intro d g linha par hok hneg
    rw [passoLinha, if_pos (corpoLinha_ok_contains hok), hok]
    dsimp only
    rw [if_neg (not_le.mpr hneg)]
  · intro valor_causa tipo_acao resposta v
    refine ⟨fun h => ?_, fun h => ?_, fun h => ?_⟩ <;>
      exact dictGet?_nonneg (processar_valores_nonneg resposta) h

/-- Witness for C10 on a concrete negative-value line. -/
theorem claim_C10_witness :
    passoLinha ([], []) "MINIMO: -500.00" = ([], []) :=
  claim_C10_negative_discarded.1 [] [] "MINIMO: -500.00" ("MINIMO", -500)
    (by decide) (by decide)
